import Mathlib

/-!
Verification development for the block-utils library (src/lib.rs).

The Rust data model and the operations relevant to the claims are shallowly
embedded as executable Lean definitions.  Strings are modelled by Lean
`String` / `List Char` (all inputs of interest are ASCII), machine integers by
`Nat` with explicit bound / wrap-around checks where the Rust code can
overflow, fallible Rust functions by `Option` / `Except`, and a Rust panic by
an explicit `panicked` outcome where one is reachable.
-/

set_option maxRecDepth 100000

/-! ## Generic string / list helpers -/

/-- `startsWithL pat l` is true iff `pat` is a prefix of `l`
(byte-for-byte comparison, as slice comparison in Rust). -/
def startsWithL : List Char → List Char → Bool
  | [], _ => true
  | _ :: _, [] => false
  | a :: as, b :: bs => a == b && startsWithL as bs

/-- `containsSubL hay needle` models Rust `str::contains`: some suffix of
`hay` starts with `needle`. -/
def containsSubL : List Char → List Char → Bool
  | [], pat => startsWithL pat []
  | c :: rest, pat => startsWithL pat (c :: rest) || containsSubL rest pat

/-- Model of Rust `str::to_lowercase` (per-character lowercasing, which agrees
with the Rust function on the ASCII data handled by the library). -/
def toLowerStr (s : String) : String := String.mk (s.data.map Char.toLower)

/-- Accumulator pass for `splitWs` (structurally recursive so that all proofs
can evaluate it). -/
def splitWsAux : List Char → List Char → List String
  | [], acc => if acc.isEmpty then [] else [String.mk acc.reverse]
  | c :: rest, acc =>
    if c.isWhitespace then
      if acc.isEmpty then splitWsAux rest []
      else String.mk acc.reverse :: splitWsAux rest []
    else splitWsAux rest (c :: acc)

/-- Model of Rust `str::split_whitespace`: whitespace-separated fields, with
no empty fields. -/
def splitWs (s : String) : List String := splitWsAux s.data []

/-- Accumulator pass for `splitOnChar`. -/
def splitOnCharAux (sep : Char) : List Char → List Char → List String
  | [], acc => [String.mk acc.reverse]
  | c :: rest, acc =>
    if c == sep then String.mk acc.reverse :: splitOnCharAux sep rest []
    else splitOnCharAux sep rest (c :: acc)

/-- Model of Rust `str::split(sep)`: separator-delimited pieces, keeping empty
pieces (e.g. splitting "a::b" on ':' gives ["a", "", "b"]). -/
def splitOnChar (sep : Char) (s : String) : List String :=
  splitOnCharAux sep s.data []

/-- Model of Rust `str::trim`: strip leading and trailing whitespace. -/
def trimStr (s : String) : String :=
  String.mk (((s.data.dropWhile Char.isWhitespace).reverse.dropWhile
    Char.isWhitespace).reverse)

/-- Numeric value of a run of ASCII digits. -/
def digitsToNat (cs : List Char) : Nat :=
  cs.foldl (fun n c => n * 10 + (c.toNat - 48)) 0

/-- Model of Rust `u{N}::from_str` for unsigned integers, without the width
bound: an optional leading `+` followed by at least one ASCII digit. -/
def parseNatStr (s : String) : Option Nat :=
  let cs := match s.data with
    | '+' :: rest => rest
    | cs => cs
  if cs.isEmpty then none
  else if cs.all Char.isDigit then some (digitsToNat cs) else none

/-- Model of Rust `u8::from_str`. -/
def parseU8Str (s : String) : Option Nat :=
  match parseNatStr s with
  | some n => if n ≤ 255 then some n else none
  | none => none

/-- Model of Rust `u32::from_str`. -/
def parseU32Str (s : String) : Option Nat :=
  match parseNatStr s with
  | some n => if n < 2 ^ 32 then some n else none
  | none => none

/-- Model of Rust `u64::from_str`. -/
def parseU64Str (s : String) : Option Nat :=
  match parseNatStr s with
  | some n => if n < 2 ^ 64 then some n else none
  | none => none

/-! ## The enumerations of the library -/

/-- `Vendor` (lib.rs): what raid card, if any, the system is using. -/
inductive Vendor where
  | None
  | Cisco
  | Hp
  | Lsi
  | Qemu
  | Vbox
  | NECVMWar
  | VMware
deriving DecidableEq

/-- `Vendor::from_str` (lib.rs).  `some` models `Ok`, `none` models the
`Err(BlockUtilsError::new("Unknown Vendor ..."))` arm. -/
def vendorFromStr (s : String) : Option Vendor :=
  if s = "ATA" then some .None
  else if s = "CISCO" then some .Cisco
  else if s = "HP" then some .Hp
  else if s = "hp" then some .Hp
  else if s = "HPE" then some .Hp
  else if s = "LSI" then some .Lsi
  else if s = "QEMU" then some .Qemu
  else if s = "VBOX" then some .Vbox
  else if s = "NECVMWar" then some .NECVMWar
  else if s = "VMware" then some .VMware
  else none

/-- `MediaType` (lib.rs). -/
inductive MediaType where
  | SolidState
  | Rotational
  | Loopback
  | LVM
  | MdRaid
  | NVME
  | Ram
  | Virtual
  | Unknown
deriving DecidableEq

/-- `DeviceType` (lib.rs). -/
inductive DeviceType where
  | Disk
  | Partition
  | Unknown
deriving DecidableEq

/-- `DeviceType::from_str` (lib.rs): lower-cases, maps disk/partition, and is
total (unknown strings give `Unknown`, not an error). -/
def deviceTypeFromStr (s : String) : DeviceType :=
  let t := toLowerStr s
  if t = "disk" then .Disk
  else if t = "partition" then .Partition
  else .Unknown

/-- `FilesystemType` (lib.rs). -/
inductive FilesystemType where
  | Btrfs
  | Ext2
  | Ext3
  | Ext4
  | Lvm
  | Xfs
  | Zfs
  | Ntfs
  | Vfat
  | Unrecognised (name : String)
  | Unknown
deriving DecidableEq

/-- The strings recognised by `FilesystemType::from_str` after lower-casing. -/
def recognizedFs : List String :=
  ["btrfs", "ext2", "ext3", "ext4", "lvm2_member", "xfs", "zfs", "vfat", "ntfs", ""]

/-- The match of `FilesystemType::from_str` (lib.rs) on the lower-cased
input.  Every arm of the Rust match returns `Ok`, so the match itself is the
pure function below. -/
def fsOfLower (t : String) : FilesystemType :=
  if t = "btrfs" then .Btrfs
  else if t = "ext2" then .Ext2
  else if t = "ext3" then .Ext3
  else if t = "ext4" then .Ext4
  else if t = "lvm2_member" then .Lvm
  else if t = "xfs" then .Xfs
  else if t = "zfs" then .Zfs
  else if t = "vfat" then .Vfat
  else if t = "ntfs" then .Ntfs
  else if t = "" then .Unknown
  else .Unrecognised t

/-- `FilesystemType::from_str` (lib.rs): lower-case, then match.  The Rust
function returns `Result<Self, BlockUtilsError>` but every arm is `Ok`; the
`Except` mirrors the signature. -/
def fsFromStr (s : String) : Except String FilesystemType :=
  .ok (fsOfLower (toLowerStr s))

/-- `FilesystemType::to_str` (lib.rs). -/
def fsToStr : FilesystemType → String
  | .Btrfs => "btrfs"
  | .Ext2 => "ext2"
  | .Ext3 => "ext3"
  | .Ext4 => "ext4"
  | .Lvm => "lvm"
  | .Xfs => "xfs"
  | .Zfs => "zfs"
  | .Vfat => "vfat"
  | .Ntfs => "ntfs"
  | .Unrecognised name => name
  | .Unknown => "unknown"

/-- `DeviceState` (lib.rs). -/
inductive DeviceState where
  | Blocked
  | FailFast
  | Lost
  | Running
  | RunningRta
deriving DecidableEq

/-- `DeviceState::from_str` (lib.rs); `none` models the `Err` arm. -/
def deviceStateFromStr (s : String) : Option DeviceState :=
  if s = "blocked" then some .Blocked
  else if s = "failfast" then some .FailFast
  else if s = "lost" then some .Lost
  else if s = "running" then some .Running
  else if s = "running_rta" then some .RunningRta
  else none

/-- `ScsiDeviceType` (lib.rs). -/
inductive ScsiDeviceType where
  | DirectAccess
  | SequentialAccess
  | Printer
  | Processor
  | WriteOnce
  | CdRom
  | Scanner
  | Opticalmemory
  | MediumChanger
  | Communications
  | Unknowna
  | Unknownb
  | StorageArray
  | Enclosure
  | SimplifiedDirectAccess
  | OpticalCardReadWriter
  | BridgeController
  | ObjectBasedStorage
  | AutomationDriveInterface
  | SecurityManager
  | ZonedBlock
  | Reserved15
  | Reserved16
  | Reserved17
  | Reserved18
  | Reserved19
  | Reserved1a
  | Reserved1b
  | Reserved1c
  | Reserved1e
  | WellKnownLu
  | NoDevice
deriving DecidableEq

/-- `ScsiDeviceType::from_str` (lib.rs); `none` models the `Err` arm. -/
def scsiDeviceTypeFromStr (s : String) : Option ScsiDeviceType :=
  if s = "0" then some .DirectAccess
  else if s = "1" then some .SequentialAccess
  else if s = "2" then some .Printer
  else if s = "3" then some .Processor
  else if s = "4" then some .WriteOnce
  else if s = "5" then some .CdRom
  else if s = "6" then some .Scanner
  else if s = "7" then some .Opticalmemory
  else if s = "8" then some .MediumChanger
  else if s = "9" then some .Communications
  else if s = "10" then some .Unknowna
  else if s = "11" then some .Unknownb
  else if s = "12" then some .StorageArray
  else if s = "13" then some .Enclosure
  else if s = "14" then some .SimplifiedDirectAccess
  else if s = "15" then some .OpticalCardReadWriter
  else if s = "16" then some .BridgeController
  else if s = "17" then some .ObjectBasedStorage
  else if s = "18" then some .AutomationDriveInterface
  else if s = "19" then some .SecurityManager
  else if s = "20" then some .ZonedBlock
  else if s = "21" then some .Reserved15
  else if s = "22" then some .Reserved16
  else if s = "23" then some .Reserved17
  else if s = "24" then some .Reserved18
  else if s = "25" then some .Reserved19
  else if s = "26" then some .Reserved1a
  else if s = "27" then some .Reserved1b
  else if s = "28" then some .Reserved1c
  else if s = "29" then some .Reserved1e
  else if s = "30" then some .WellKnownLu
  else if s = "31" then some .NoDevice
  else if s = "Direct-Access" then some .DirectAccess
  else if s = "Enclosure" then some .Enclosure
  else if s = "RAID" then some .StorageArray
  else none

/-! ## ScsiInfo and Enclosure -/

/-- `Enclosure` (lib.rs): a raid array enclosure. -/
structure EnclosureM where
  active : Option String
  fault : Option String
  powerStatus : Option String
  slot : Nat
  status : Option String
  enclosureType : Option String
deriving DecidableEq

/-- `Default for Enclosure` (lib.rs). -/
def enclosureDefault : EnclosureM :=
  { active := none, fault := none, powerStatus := none, slot := 0,
    status := none, enclosureType := none }

/-- `ScsiInfo` (lib.rs).  `block_device : Option<PathBuf>` is modelled as an
optional path string; the `u8` coordinates as `Nat` (the parsers enforce the
255 bound). -/
structure ScsiInfoM where
  blockDevice : Option String
  enclosure : Option EnclosureM
  host : Nat
  channel : Nat
  id : Nat
  lun : Nat
  vendor : Vendor
  model : Option String
  rev : Option String
  state : Option DeviceState
  scsiType : ScsiDeviceType
  scsiRevision : Nat
deriving DecidableEq

/-- `Default for ScsiInfo` (lib.rs). -/
def scsiDefault : ScsiInfoM :=
  { blockDevice := none, enclosure := none, host := 0, channel := 0, id := 0,
    lun := 0, vendor := .None, model := none, rev := none, state := none,
    scsiType := .NoDevice, scsiRevision := 0 }

/-- `PartialEq for ScsiInfo` (lib.rs): equality solely by the
`(host, channel, id, lun)` coordinate. -/
def scsiEqb (a b : ScsiInfoM) : Bool :=
  a.host == b.host && a.channel == b.channel && a.id == b.id && a.lun == b.lun

/-! ## Mount table index: `get_mountpoint` and `get_mount_device` -/

/-- Result of `get_mountpoint` on a given mtab content.  `panicked` models the
out-of-bounds `parts[1]` indexing panic reachable when a matching line has a
single field. -/
inductive MpR where
  | found (m : String)
  | notFound
  | panicked
deriving DecidableEq

/-- `get_mountpoint` (lib.rs), abstracted over the mtab file content
(given as its list of lines).  For each line the code records the index of the
last whitespace-separated field equal to the device string and, if one exists,
returns field 1 of that line (panicking if the line has fewer than two
fields); otherwise it moves to the next line. -/
def getMountpointM (dev : String) : List String → MpR
  | [] => .notFound
  | l :: rest =>
    if (splitWs l).any (fun p => p == dev) then
      match (splitWs l).get? 1 with
      | some m => .found m
      | none => .panicked
    else getMountpointM dev rest

/-- `get_mount_device` (lib.rs), abstracted over the mtab file content: first
line whose raw text contains the directory as a substring; its first field is
returned (a whitespace-only matching line falls through to the next line). -/
def getMountDeviceM (dir : String) : List String → Option String
  | [] => none
  | l :: rest =>
    if containsSubL l.data dir.data then
      match (splitWs l).head? with
      | some p => some p
      | none => getMountDeviceM dir rest
    else getMountDeviceM dir rest

/-! ## Theorems: FilesystemType (claims about parsing and round-trips) -/

/-- C3 counterexample: `FilesystemType::from_str` lower-cases its input before
building `Unrecognised`, so the non-empty unrecognized string "XyzFS" is NOT
preserved verbatim: the parser returns `Unrecognised "xyzfs"`, which differs
from `Unrecognised "XyzFS"`. -/
theorem fsUnrecognisedVerbatimCounterexample :
    fsFromStr "XyzFS" = .ok (.Unrecognised "xyzfs") ∧
    FilesystemType.Unrecognised "xyzfs" ≠ FilesystemType.Unrecognised "XyzFS" := by
  exact ⟨rfl, by decide⟩

/-- C3 (amended): for every string `s` whose lower-casing is not one of the
strings with a dedicated arm in `FilesystemType::from_str` (the nine
recognized filesystem names and the empty string), parsing returns
`Unrecognised` carrying the LOWER-CASED text of `s`; the empty string parses
to `Unknown`.  Recognition is case-insensitive. -/
theorem fsUnrecognisedLowercased :
    (∀ s : String, toLowerStr s ∉ recognizedFs →
       fsFromStr s = .ok (.Unrecognised (toLowerStr s))) ∧
    fsFromStr "" = .ok .Unknown := by
  constructor
  · intro s hmem
    simp only [recognizedFs, List.mem_cons, List.not_mem_nil, or_false, not_or] at hmem
    obtain ⟨h1, h2, h3, h4, h5, h6, h7, h8, h9, h10⟩ := hmem
    simp only [fsFromStr, fsOfLower, h1, h2, h3, h4, h5, h6, h7, h8, h9, h10,
      if_false]
  · rfl

/-- Witness for the C3 theorem at the concrete input "AbC". -/
theorem fsUnrecognisedLowercasedWitness :
    fsFromStr "AbC" = .ok (.Unrecognised (toLowerStr "AbC")) :=
  fsUnrecognisedLowercased.1 "AbC" (by decide)

/-- C10: `FilesystemType::from_str` is total (never an error), and among the
ten argumentless variants the round-trip `from_str (to_str f) = Ok f` holds
exactly for Btrfs, Ext2, Ext3, Ext4, Xfs, Zfs, Vfat and Ntfs; for Lvm and
Unknown the round-trip instead yields `Unrecognised "lvm"` and
`Unrecognised "unknown"`, because `to_str` emits "lvm" and "unknown" while the
parser only recognizes "lvm2_member" and the empty string. -/
theorem fsRoundTrip :
    (∀ s : String, ∃ f, fsFromStr s = .ok f) ∧
    (∀ f : FilesystemType, (∀ nm, f ≠ .Unrecognised nm) →
       (fsFromStr (fsToStr f) = .ok f ↔
         (f = .Btrfs ∨ f = .Ext2 ∨ f = .Ext3 ∨ f = .Ext4 ∨ f = .Xfs ∨
          f = .Zfs ∨ f = .Vfat ∨ f = .Ntfs))) ∧
    fsFromStr (fsToStr .Lvm) = .ok (.Unrecognised "lvm") ∧
    fsFromStr (fsToStr .Unknown) = .ok (.Unrecognised "unknown") := by
  refine ⟨fun s => ⟨fsOfLower (toLowerStr s), rfl⟩, ?_, rfl, rfl⟩
  intro f h
  cases f
  case Unrecognised nm => exact absurd rfl (h nm)
  case Lvm =>
    exact iff_of_false (fun hc => FilesystemType.noConfusion (Except.ok.inj hc))
      (by decide)
  case Unknown =>
    exact iff_of_false (fun hc => FilesystemType.noConfusion (Except.ok.inj hc))
      (by decide)
  all_goals exact iff_of_true rfl (by decide)

/-- Witness for the C10 theorem at the concrete variant `Btrfs`. -/
theorem fsRoundTripWitness :
    fsFromStr (fsToStr .Btrfs) = .ok .Btrfs ↔
      (FilesystemType.Btrfs = .Btrfs ∨ FilesystemType.Btrfs = .Ext2 ∨
       FilesystemType.Btrfs = .Ext3 ∨ FilesystemType.Btrfs = .Ext4 ∨
       FilesystemType.Btrfs = .Xfs ∨ FilesystemType.Btrfs = .Zfs ∨
       FilesystemType.Btrfs = .Vfat ∨ FilesystemType.Btrfs = .Ntfs) :=
  fsRoundTrip.2.1 .Btrfs (fun _ h => FilesystemType.noConfusion h)

/-! ## Theorems: mount table (C4) -/

/-- C4 counterexample: the device string "ev/sda1" occurs as a substring of
the raw mtab line "/dev/sda1 /mnt/data ext4 rw 0 0", so the claim predicts
`found "/mnt/data"`; but `get_mountpoint` matches whole whitespace-separated
fields exactly and returns no mountpoint for it. -/
theorem mountpointSubstringCounterexample :
    containsSubL "/dev/sda1 /mnt/data ext4 rw 0 0".data "ev/sda1".data = true ∧
    getMountpointM "ev/sda1" ["/dev/sda1 /mnt/data ext4 rw 0 0"] = .notFound := by
  exact ⟨by decide, by decide⟩

/-- C4 (amended): `get_mountpoint dev` returns the second whitespace-separated
field of the first line in which SOME field is exactly equal to `dev` (an
exact field match, not substring containment over the raw line; a matching
line with fewer than two fields panics on `parts[1]`), and `notFound` when no
line has such a field.  The spec's own example holds: an exact device field
match yields its mountpoint. -/
theorem mountpointExactFieldMatch :
    (∀ (dev : String) (lines : List String),
       getMountpointM dev lines =
         match lines.find? (fun l => (splitWs l).any (fun p => p == dev)) with
         | none => .notFound
         | some l =>
           match (splitWs l).get? 1 with
           | some m => .found m
           | none => .panicked) ∧
    getMountpointM "/dev/sda1" ["/dev/sda1 /mnt/data ext4 rw 0 0"] =
      .found "/mnt/data" := by
  constructor
  · intro dev lines
    induction lines with
    | nil => rfl
    | cons l rest ih =>
      simp only [getMountpointM]
      by_cases h : ((splitWs l).any (fun p => p == dev)) = true
      · rw [if_pos h,
          @List.find?_cons_of_pos _ (fun s => (splitWs s).any (fun p => p == dev)) l rest h]
      · rw [if_neg h, ih,
          @List.find?_cons_of_neg _ (fun s => (splitWs s).any (fun p => p == dev)) l rest
            (by simpa using h)]
  · decide

/-- Witness for the C4 theorem, applying it at a concrete device and mtab. -/
theorem mountpointExactFieldMatchWitness :
    getMountpointM "/dev/sdb2" ["/dev/sda1 /mnt/data ext4 rw 0 0", "/dev/sdb2 /backup xfs rw 0 0"] =
      match ["/dev/sda1 /mnt/data ext4 rw 0 0", "/dev/sdb2 /backup xfs rw 0 0"].find?
          (fun l => (splitWs l).any (fun p => p == "/dev/sdb2")) with
      | none => .notFound
      | some l =>
        match (splitWs l).get? 1 with
        | some m => .found m
        | none => .panicked :=
  mountpointExactFieldMatch.1 "/dev/sdb2"
    ["/dev/sda1 /mnt/data ext4 rw 0 0", "/dev/sdb2 /backup xfs rw 0 0"]

/-! ## Host/LUN associator: `sort_scsi_info_iter` (C6) -/

/-- The search predicate of `sort_scsi_info_iter` (lib.rs): `d` is a
candidate host-adapter record for `dev` iff it shares `dev`'s host number and
sits at channel 0, id 0, lun 0. -/
def isHostOf (dev d : ScsiInfoM) : Bool :=
  d.host == dev.host && d.channel == 0 && d.id == 0 && d.lun == 0

/-- The per-record body of `sort_scsi_info_iter` (lib.rs): position of the
first candidate host record; if it is coordinate-equal to the device itself,
no host is associated. -/
def assocHost (info : List ScsiInfoM) (dev : ScsiInfoM) : Option ScsiInfoM :=
  match info.find? (fun d => isHostOf dev d) with
  | some h => if scsiEqb h dev then none else some h
  | none => none

/-- `sort_scsi_info_iter` / `sort_scsi_info` (lib.rs). -/
def sortScsiInfoM (info : List ScsiInfoM) : List (ScsiInfoM × Option ScsiInfoM) :=
  info.map (fun dev => (dev, assocHost info dev))

/-- Sample records of the repository's `test_sort_raid_info` test. -/
def scsiH2 : ScsiInfoM := { scsiDefault with host := 2 }

/-- SCSI record at coordinates (2,1,0,0). -/
def scsiH2C1 : ScsiInfoM := { scsiDefault with host := 2, channel := 1 }

/-- SCSI record at coordinates (2,1,0,1). -/
def scsiH2C1L1 : ScsiInfoM := { scsiDefault with host := 2, channel := 1, lun := 1 }

/-- If one candidate host record of `dev` is coordinate-equal to `dev`, then
every candidate host record of `dev` is (all candidates share the coordinate
`(dev.host, 0, 0, 0)`). -/
theorem scsiHostPairEq (dev a b : ScsiInfoM) (ha : isHostOf dev a = true)
    (hb : isHostOf dev b = true) (hab : scsiEqb a dev = true) :
    scsiEqb b dev = true := by
  simp only [isHostOf, scsiEqb, Bool.and_eq_true, beq_iff_eq] at ha hb hab ⊢
  obtain ⟨⟨⟨ha1, ha2⟩, ha3⟩, ha4⟩ := ha
  obtain ⟨⟨⟨hb1, hb2⟩, hb3⟩, hb4⟩ := hb
  obtain ⟨⟨⟨e1, e2⟩, e3⟩, e4⟩ := hab
  refine ⟨⟨⟨by omega, by omega⟩, by omega⟩, by omega⟩

/-- C6: `sort_scsi_info` yields one pair per input record, in input order;
a record `dev` is associated with `none` iff every candidate host record
(same host number, channel 0, id 0, lun 0) is coordinate-equal to `dev`
itself (in particular when no candidate exists), and an associated `some h`
is a member of the input satisfying the host predicate and not
coordinate-equal to `dev`.  On the coordinates (0,0,0,0), (2,0,0,0),
(2,1,0,0), (2,1,0,1) of the repository's own test: (2,1,0,1) and (2,1,0,0)
associate with the (2,0,0,0) record, while (2,0,0,0) and (0,0,0,0) associate
with `none`. -/
theorem sortScsiInfoAssociation :
    (∀ info : List ScsiInfoM, (sortScsiInfoM info).map Prod.fst = info) ∧
    (∀ (info : List ScsiInfoM) (dev : ScsiInfoM),
       (assocHost info dev = none ↔
          ∀ h ∈ info, isHostOf dev h = true → scsiEqb h dev = true) ∧
       (∀ h, assocHost info dev = some h →
          h ∈ info ∧ isHostOf dev h = true ∧ scsiEqb h dev = false)) ∧
    sortScsiInfoM [scsiDefault, scsiH2, scsiH2C1, scsiH2C1L1] =
      [(scsiDefault, none), (scsiH2, none), (scsiH2C1, some scsiH2),
       (scsiH2C1L1, some scsiH2)] := by
  refine ⟨?_, ?_, by decide⟩
  · intro info
    simp [sortScsiInfoM, List.map_map, Function.comp_def]
  · intro info dev
    cases hf : info.find? (fun d => isHostOf dev d) with
    | none =>
      have hnone := List.find?_eq_none.mp hf
      refine ⟨⟨fun _ h hm hh => absurd hh (by simpa using hnone h hm),
        fun _ => by simp [assocHost, hf]⟩, ?_⟩
      intro h hsome
      simp [assocHost, hf] at hsome
    | some h0 =>
      have hp : isHostOf dev h0 = true := List.find?_some hf
      have hm : h0 ∈ info := List.mem_of_find?_eq_some hf
      by_cases he : scsiEqb h0 dev = true
      · refine ⟨⟨fun _ h hmem hh => scsiHostPairEq dev h0 h hp hh he,
          fun _ => by simp [assocHost, hf, he]⟩, ?_⟩
        intro h hsome
        simp [assocHost, hf, he] at hsome
      · refine ⟨⟨fun hn => ?_, fun hall => absurd (hall h0 hm hp) he⟩, ?_⟩
        · exfalso
          simp [assocHost, hf, he] at hn
        · intro h hsome
          simp only [assocHost, hf] at hsome
          rw [if_neg he] at hsome
          injection hsome with hh
          subst hh
          exact ⟨hm, hp, by simpa using he⟩

/-- Witness for the C6 theorem: the (2,1,0,0) record associates with the
(2,0,0,0) record, which satisfies the host predicate and is not
coordinate-equal to it. -/
theorem sortScsiInfoAssociationWitness :
    scsiH2 ∈ [scsiDefault, scsiH2, scsiH2C1] ∧ isHostOf scsiH2C1 scsiH2 = true ∧
      scsiEqb scsiH2 scsiH2C1 = false :=
  (sortScsiInfoAssociation.2.1 [scsiDefault, scsiH2, scsiH2C1] scsiH2C1).2 scsiH2
    (by decide)

/-! ## The udev device database model -/

/-- A udev device handle: sysname, optional devtype and subsystem, property
and attribute bags, and the optional parent handle. -/
inductive UdevDevice where
  | mk (sysname : String) (devtype : Option String) (subsystem : Option String)
      (properties : List (String × String)) (attributes : List (String × String))
      (parent : Option UdevDevice)

/-- The sysname of a udev device. -/
def UdevDevice.sysname : UdevDevice → String
  | .mk s _ _ _ _ _ => s

/-- The devtype of a udev device. -/
def UdevDevice.devtype : UdevDevice → Option String
  | .mk _ t _ _ _ _ => t

/-- The subsystem of a udev device. -/
def UdevDevice.subsystem : UdevDevice → Option String
  | .mk _ _ ss _ _ _ => ss

/-- The property bag of a udev device. -/
def UdevDevice.properties : UdevDevice → List (String × String)
  | .mk _ _ _ ps _ _ => ps

/-- The attribute bag of a udev device. -/
def UdevDevice.attributes : UdevDevice → List (String × String)
  | .mk _ _ _ _ as _ => as

/-- The parent handle of a udev device. -/
def UdevDevice.parent : UdevDevice → Option UdevDevice
  | .mk _ _ _ _ _ p => p

/-- `device.property_value(key)`. -/
def propVal (d : UdevDevice) (key : String) : Option String :=
  (d.properties.find? (fun kv => kv.fst == key)).map Prod.snd

/-- `device.attribute_value(key)`. -/
def attrVal (d : UdevDevice) (key : String) : Option String :=
  (d.attributes.find? (fun kv => kv.fst == key)).map Prod.snd

/-! ## Classifier: `get_media_type` (C7) and `Device` construction -/

/-- Does `pat` followed by at least one ASCII digit occur at the head of
`s`. -/
def patDigitHere (pat s : List Char) : Bool :=
  startsWithL pat s &&
    (match s.drop pat.length with
     | c :: _ => c.isDigit
     | [] => false)

/-- Model of `Regex::new(r"...\d+").is_match(s)` for a literal pattern stem:
the stem occurs somewhere in `s` immediately followed by at least one ASCII
digit (regex `is_match` is a search, not anchored). -/
def patDigitMatch (pat : List Char) : List Char → Bool
  | [] => patDigitHere pat []
  | c :: rest => patDigitHere pat (c :: rest) || patDigitMatch pat rest

/-- `get_media_type` (lib.rs): fixed-precedence rule chain. -/
def getMediaTypeM (d : UdevDevice) : MediaType :=
  if patDigitMatch "loop".data d.sysname.data then .Loopback
  else if patDigitMatch "ram".data d.sysname.data then .Ram
  else if patDigitMatch "md".data d.sysname.data then .MdRaid
  else if containsSubL d.sysname.data "nvme".data then .NVME
  else if (propVal d "DM_NAME").isSome then .LVM
  else
    match propVal d "ID_ATA_ROTATION_RATE_RPM" with
    | some rotation => if rotation = "0" then .SolidState else .Rotational
    | none =>
      match propVal d "ID_VENDOR" with
      | some v => if v = "QEMU" then .Virtual else .Unknown
      | none => .Unknown

/-- Model of the external uuid crate's `Uuid::parse_str` restricted to its
two common accepted shapes (hyphenated 8-4-4-4-12 hex, plain 32 hex digits);
the parsed value is represented by the accepted input text. -/
def uuidParse (s : String) : Option String :=
  let cs := s.data
  if cs.length == 36 then
    if (List.range 36).all (fun i =>
        if i == 8 || i == 13 || i == 18 || i == 23 then cs.getD i ' ' == '-'
        else (cs.getD i ' ').isDigit || ('a' ≤ cs.getD i ' ' && cs.getD i ' ' ≤ 'f') ||
          ('A' ≤ cs.getD i ' ' && cs.getD i ' ' ≤ 'F')) then some s
    else none
  else if cs.length == 32 && cs.all (fun c =>
      c.isDigit || ('a' ≤ c && c ≤ 'f') || ('A' ≤ c && c ≤ 'F')) then some s
  else none

/-- `get_uuid` (lib.rs): parse `ID_FS_UUID`; malformed or absent gives
`none`. -/
def getUuidM (d : UdevDevice) : Option String :=
  match propVal d "ID_FS_UUID" with
  | some v => uuidParse v
  | none => none

/-- `get_serial` (lib.rs). -/
def getSerialM (d : UdevDevice) : Option String := propVal d "ID_SERIAL"

/-- `get_size` (lib.rs): the `size` attribute (sector count) times 512, with
unparsable values defaulting to 0 and u64 wrap-around on the multiply. -/
def getSizeM (d : UdevDevice) : Option Nat :=
  match attrVal d "size" with
  | some s => some ((((parseU64Str s).getD 0) * 512) % 2 ^ 64)
  | none => none

/-- `get_fs_type` (lib.rs): `ID_FS_TYPE` through `FilesystemType::from_str`
(which is total, so the error propagation in the Rust code cannot fire);
absent property gives `Unknown`. -/
def getFsTypeM (d : UdevDevice) : FilesystemType :=
  match propVal d "ID_FS_TYPE" with
  | some s => fsOfLower (toLowerStr s)
  | none => .Unknown

/-- `get_device_type` (lib.rs). -/
def getDeviceTypeM (d : UdevDevice) : DeviceType :=
  match d.devtype with
  | some s => deviceTypeFromStr s
  | none => .Unknown

/-- `Device` (lib.rs), with the UUID modelled by its accepted text. -/
structure DeviceM where
  id : Option String
  name : String
  mediaType : MediaType
  deviceType : DeviceType
  capacity : Nat
  fsType : FilesystemType
  serialNumber : Option String

/-- `Device::from_udev_device` (lib.rs).  The fallible steps
(`get_device_type`, `get_fs_type`) can never actually fail, so the model is
total. -/
def fromUdevDeviceM (d : UdevDevice) : DeviceM :=
  { id := getUuidM d, name := d.sysname, mediaType := getMediaTypeM d,
    deviceType := getDeviceTypeM d, capacity := (getSizeM d).getD 0,
    fsType := getFsTypeM d, serialNumber := getSerialM d }

/-! ## Lookups: `is_block_device`, `get_device_info` (C8) -/

/-- Model of `Path::file_name` adequate for the plain device paths the
library handles: the last nonempty `/`-separated component, `none` for the
root path or a trailing `..`. -/
def filenameM (path : String) : Option String :=
  match ((splitOnChar '/' path).filter (fun c => c ≠ "")).getLast? with
  | some c => if c = ".." then none else some c
  | none => none

/-- `is_block_device` (lib.rs): `Ok(true)` when some enumerated device has
the path's file name as sysname and subsystem "block"; otherwise the function
falls through to an `Err` — it never returns `Ok(false)`. -/
def isBlockDeviceM (db : List UdevDevice) (path : String) : Except Unit Bool :=
  match filenameM path with
  | none => .error ()
  | some sn =>
    if db.any (fun d => d.sysname == sn && d.subsystem == some "block") then
      .ok true
    else .error ()

/-- `get_device_info` (lib.rs): find the block device with the path's file
name as sysname; a miss is an `Err`, not an empty result. -/
def getDeviceInfoM (db : List UdevDevice) (path : String) : Except Unit DeviceM :=
  match filenameM path with
  | none => .error ()
  | some sn =>
    match db.find? (fun d => d.sysname == sn && d.subsystem == some "block") with
    | some d => .ok (fromUdevDeviceM d)
    | none => .error ()

/-! ## Topology resolver: `get_parent_devpath_from_path`, children (C9) -/

/-- `get_parent_name` (lib.rs): the parent handle's `/dev` path, provided the
parent's devtype is disk or partition. -/
def getParentNameM (d : UdevDevice) : Option String :=
  match d.parent with
  | some p =>
    match p.devtype with
    | some t =>
      if t == "disk" || t == "partition" then some ("/dev/" ++ p.sysname)
      else none
    | none => none
  | none => none

/-- Does the device's `DEVLINKS` property contain the searched path as a
substring. -/
def devlinksHit (d : UdevDevice) (path : String) : Bool :=
  match propVal d "DEVLINKS" with
  | some links => containsSubL links.data path.data
  | none => false

/-- One iteration of the device loop of `get_parent_devpath_from_path`
(lib.rs): a device yields a parent path iff its devtype is disk or partition,
its `/dev` path equals the searched path or its `DEVLINKS` contain it as a
substring, and `get_parent_name` qualifies its parent. -/
def devHit (d : UdevDevice) (path : String) : Option String :=
  match d.devtype with
  | some t =>
    if t == "disk" || t == "partition" then
      if path == "/dev/" ++ d.sysname || devlinksHit d path then getParentNameM d
      else none
    else none
  | none => none

/-- `get_parent_devpath_from_path` (lib.rs): first device of the enumeration
that hits decides the answer; no hit gives `Ok(None)`. -/
def getParentM : List UdevDevice → String → Option String
  | [], _ => none
  | d :: rest, path =>
    match devHit d path with
    | some n => some n
    | none => getParentM rest path

/-- The filter body of `get_specific_block_device_iter` for partitions
(lib.rs): block-subsystem devices whose devtype is "partition". -/
def partitionPath? (d : UdevDevice) : Option String :=
  if d.subsystem == some "block" then
    if (match d.devtype with | some t => t == "partition" | none => false) then
      some ("/dev/" ++ d.sysname)
    else none
  else none

/-- `get_block_partitions_iter` (lib.rs). -/
def getBlockPartitionsM (db : List UdevDevice) : List String :=
  db.filterMap partitionPath?

/-- `get_children_devpaths_from_path_iter` (lib.rs): all known partitions
whose computed parent equals the given path. -/
def getChildrenM (db : List UdevDevice) (path : String) : List String :=
  (getBlockPartitionsM db).filter (fun p =>
    match getParentM db p with
    | some parent => path == parent
    | none => false)

/-! ## Theorems: media type classification (C7) -/

/-- C7: `get_media_type` evaluates its rules in fixed precedence order with
first match winning: a sysname matching `loop<digits>` classifies as Loopback
regardless of any properties; when no name rule matches and `DM_NAME` (which
sits before the rotation rule in the precedence) is absent,
`ID_ATA_ROTATION_RATE_RPM = "0"` yields SolidState, any other present value
yields Rotational, and an absent value falls through to the `ID_VENDOR` rule
and then Unknown. -/
theorem mediaTypePrecedence :
    (∀ d : UdevDevice, patDigitMatch "loop".data d.sysname.data = true →
       getMediaTypeM d = .Loopback) ∧
    (∀ d : UdevDevice,
       patDigitMatch "loop".data d.sysname.data = false →
       patDigitMatch "ram".data d.sysname.data = false →
       patDigitMatch "md".data d.sysname.data = false →
       containsSubL d.sysname.data "nvme".data = false →
       propVal d "DM_NAME" = none →
       (propVal d "ID_ATA_ROTATION_RATE_RPM" = some "0" →
          getMediaTypeM d = .SolidState) ∧
       (∀ v, propVal d "ID_ATA_ROTATION_RATE_RPM" = some v → v ≠ "0" →
          getMediaTypeM d = .Rotational) ∧
       (propVal d "ID_ATA_ROTATION_RATE_RPM" = none →
          getMediaTypeM d =
            match propVal d "ID_VENDOR" with
            | some v => if v = "QEMU" then .Virtual else .Unknown
            | none => .Unknown)) := by
  constructor
  · intro d h
    simp [getMediaTypeM, h]
  · intro d h1 h2 h3 h4 h5
    refine ⟨?_, ?_, ?_⟩
    · intro hr
      simp [getMediaTypeM, h1, h2, h3, h4, h5, hr]
    · intro v hr hv
      simp [getMediaTypeM, h1, h2, h3, h4, h5, hr, hv]
    · intro hr
      simp [getMediaTypeM, h1, h2, h3, h4, h5, hr]

/-- A loopback device that also carries a rotation-rate property. -/
def loopDev : UdevDevice :=
  .mk "loop7" (some "disk") (some "block") [("ID_ATA_ROTATION_RATE_RPM", "0")] [] none

/-- A plain disk with rotation rate "0". -/
def ssdDev : UdevDevice :=
  .mk "sda" (some "disk") (some "block") [("ID_ATA_ROTATION_RATE_RPM", "0")] [] none

/-- Witness for the C7 theorem: `loop7` is Loopback even with a rotation-rate
property present, and a plain `sda` with rotation rate "0" is SolidState. -/
theorem mediaTypePrecedenceWitness :
    getMediaTypeM loopDev = .Loopback ∧ getMediaTypeM ssdDev = .SolidState :=
  ⟨mediaTypePrecedence.1 loopDev (by decide),
   (mediaTypePrecedence.2 ssdDev (by decide) (by decide) (by decide) (by decide)
      (by decide)).1 (by decide)⟩

/-! ## Theorems: lookup misses (C8) -/

/-- C8 counterexample: with a backing enumeration that succeeded (here: an
empty device list), `is_block_device` and `get_device_info` return an ERROR on
a lookup miss, not `false` / an empty optional as the claim states. -/
theorem lookupMissErrorCounterexample :
    isBlockDeviceM [] "/dev/sda" = .error () ∧
      (Except.error () : Except Unit Bool) ≠ .ok false ∧
      getDeviceInfoM [] "/dev/sda" = .error () :=
  ⟨rfl, fun h => Except.noConfusion h, rfl⟩

/-- C8 (amended): `get_mount_device`, `get_mountpoint` and
`get_parent_devpath_from_path` return an empty optional result on a lookup
miss, but `is_block_device` and `get_device_info` return an error when no
enumerated block device has the requested file name — a miss there is NOT an
empty optional / `false`. -/
theorem lookupMissBehaviour :
    (∀ (dir : String) (lines : List String),
       (∀ l ∈ lines, containsSubL l.data dir.data = false) →
       getMountDeviceM dir lines = none) ∧
    (∀ (dev : String) (lines : List String),
       (∀ l ∈ lines, ∀ p ∈ splitWs l, ¬(p = dev)) →
       getMountpointM dev lines = .notFound) ∧
    (∀ (db : List UdevDevice) (path : String),
       (∀ d ∈ db, devHit d path = none) → getParentM db path = none) ∧
    (∀ (db : List UdevDevice) (path : String) (sn : String),
       filenameM path = some sn →
       (∀ d ∈ db, (d.sysname == sn && d.subsystem == some "block") = false) →
       isBlockDeviceM db path = .error () ∧ getDeviceInfoM db path = .error ()) := by
  refine ⟨?_, ?_, ?_, ?_⟩
  · intro dir lines
    induction lines with
    | nil => intro _; rfl
    | cons l rest ih =>
      intro h
      have hl := h l (List.mem_cons_self l rest)
      simp only [getMountDeviceM, hl, Bool.false_eq_true, if_false]
      exact ih (fun x hx => h x (List.mem_cons_of_mem l hx))
  · intro dev lines
    induction lines with
    | nil => intro _; rfl
    | cons l rest ih =>
      intro h
      have hl : ((splitWs l).any (fun p => p == dev)) = false := by
        rw [List.any_eq_false]
        intro p hp
        simpa using h l (List.mem_cons_self l rest) p hp
      simp only [getMountpointM, hl, Bool.false_eq_true, if_false]
      exact ih (fun x hx => h x (List.mem_cons_of_mem l hx))
  · intro db path
    induction db with
    | nil => intro _; rfl
    | cons d rest ih =>
      intro h
      simp only [getParentM, h d (List.mem_cons_self d rest)]
      exact ih (fun x hx => h x (List.mem_cons_of_mem d hx))
  · intro db path sn hsn h
    have hany : (db.any (fun d => d.sysname == sn && d.subsystem == some "block")) = false := by
      rw [List.any_eq_false]
      intro d hd
      simp [h d hd]
    have hfind : db.find? (fun d => d.sysname == sn && d.subsystem == some "block") = none := by
      rw [List.find?_eq_none]
      intro d hd
      simp [h d hd]
    constructor
    · simp only [isBlockDeviceM, hsn, hany, Bool.false_eq_true, if_false]
    · simp only [getDeviceInfoM, hsn, hfind]

/-- Witness for the C8 theorem: a concrete miss in a one-device database. -/
theorem lookupMissBehaviourWitness :
    isBlockDeviceM [ssdDev] "/dev/sdz" = .error () ∧
      getDeviceInfoM [ssdDev] "/dev/sdz" = .error () :=
  lookupMissBehaviour.2.2.2 [ssdDev] "/dev/sdz" "sdz" (by decide) (by decide)

/-! ## Theorems: parent/children topology (C9) -/

/-- A disk with no parent, used as an unrelated DEVLINKS-colliding device's
parent. -/
def devC : UdevDevice := .mk "c" (some "disk") (some "block") [] [] none

/-- Disk A of the C9 counterexample. -/
def devA : UdevDevice := .mk "a" (some "disk") (some "block") [] [] none

/-- Partition B of the C9 counterexample, with parent pointer to A. -/
def devB : UdevDevice := .mk "b" (some "partition") (some "block") [] [] (some devA)

/-- A device whose DEVLINKS alias list contains "/dev/b" as a substring and
whose own parent is C. -/
def devX : UdevDevice :=
  .mk "x" (some "disk") (some "block")
    [("DEVLINKS", "/dev/disk/by-id/wwn-123 /dev/b")] [] (some devC)

/-- C9 counterexample: B's parent pointer is A (devtypes partition/disk), yet
because device X enumerates earlier and its DEVLINKS contain "/dev/b" as a
substring, `get_parent_devpath_from_path` returns X's parent "/dev/c" instead
of "/dev/a", and B is not among the children of A. -/
theorem parentDevlinksCounterexample :
    devB.parent = some devA ∧ devA.devtype = some "disk" ∧
      devB.devtype = some "partition" ∧
      getParentM [devX, devA, devB] "/dev/b" = some "/dev/c" ∧
      (some "/dev/c" : Option String) ≠ some "/dev/a" ∧
      getChildrenM [devX, devA, devB] "/dev/a" = [] := by
  refine ⟨rfl, rfl, rfl, by decide, by decide, by decide⟩

/-- Skipping devices that do not hit leaves `get_parent_devpath_from_path`
unchanged. -/
theorem getParentAppendOfNone (pre rest : List UdevDevice) (path : String)
    (h : ∀ d ∈ pre, devHit d path = none) :
    getParentM (pre ++ rest) path = getParentM rest path := by
  induction pre with
  | nil => rfl
  | cons d pre ih =>
    simp only [List.cons_append, getParentM, h d (List.mem_cons_self d pre)]
    exact ih (fun x hx => h x (List.mem_cons_of_mem d hx))

/-- C9 (amended): for a block-subsystem partition B whose parent pointer is a
disk A, `get_parent_devpath_from_path(B) = Some(A)` and B is among the
children of A, PROVIDED no device enumerated before B hits B's path (by exact
name or by DEVLINKS substring containment with a qualifying parent) — without
that proviso an earlier DEVLINKS collision decides the parent instead. -/
theorem parentChildAmended :
    ∀ (db pre post : List UdevDevice) (A B : UdevDevice),
      db = pre ++ B :: post →
      B.devtype = some "partition" →
      B.subsystem = some "block" →
      B.parent = some A →
      A.devtype = some "disk" →
      (∀ d ∈ pre, devHit d ("/dev/" ++ B.sysname) = none) →
      getParentM db ("/dev/" ++ B.sysname) = some ("/dev/" ++ A.sysname) ∧
        ("/dev/" ++ B.sysname) ∈ getChildrenM db ("/dev/" ++ A.sysname) := by
  intro db pre post A B hdb hBdt hBsub hBpar hAdt hpre
  subst hdb
  have hhit : devHit B ("/dev/" ++ B.sysname) = some ("/dev/" ++ A.sysname) := by
    simp [devHit, hBdt, getParentNameM, hBpar, hAdt]
  have hparent : getParentM (pre ++ B :: post) ("/dev/" ++ B.sysname) =
      some ("/dev/" ++ A.sysname) := by
    rw [getParentAppendOfNone pre (B :: post) _ hpre]
    simp [getParentM, hhit]
  refine ⟨hparent, ?_⟩
  have hmem : ("/dev/" ++ B.sysname) ∈ getBlockPartitionsM (pre ++ B :: post) := by
    apply List.mem_filterMap.mpr
    exact ⟨B, by simp, by simp [partitionPath?, hBsub, hBdt]⟩
  apply List.mem_filter.mpr
  refine ⟨hmem, ?_⟩
  simp [hparent]

/-- A disk for the C9 witness. -/
def devA0 : UdevDevice := .mk "sdq" (some "disk") (some "block") [] [] none

/-- A partition of `devA0` for the C9 witness. -/
def devB0 : UdevDevice :=
  .mk "sdq1" (some "partition") (some "block") [] [] (some devA0)

/-- Witness for the C9 theorem on a concrete two-device database. -/
theorem parentChildAmendedWitness :
    getParentM [devA0, devB0] ("/dev/" ++ devB0.sysname) =
        some ("/dev/" ++ devA0.sysname) ∧
      ("/dev/" ++ devB0.sysname) ∈
        getChildrenM [devA0, devB0] ("/dev/" ++ devA0.sysname) :=
  parentChildAmended [devA0, devB0] [devA0] [] devA0 devB0 rfl rfl rfl rfl rfl
    (by decide)

/-! ## Structured SCSI tree walk: `get_scsi_info` sysfs branch (C2) -/

/-- A directory entry under a SCSI address directory: either a flat attribute
file with its content, or a subdirectory with its own (name, content)
listing (the `block` subdirectory uses only the names; an
`enclosure_device*` subdirectory uses names and contents). -/
inductive SysEntryItem where
  | file (name : String) (content : String)
  | subdir (name : String) (files : List (String × String))

/-- One step of `get_enclosure_data` (lib.rs): dispatch one directory entry
of an enclosure directory; a malformed `slot` value propagates the
`u8::from_str` error. -/
def encStep (e : EnclosureM) (kv : String × String) : Except Unit EnclosureM :=
  if kv.fst = "active" then .ok { e with active := some (trimStr kv.snd) }
  else if kv.fst = "fault" then .ok { e with fault := some (trimStr kv.snd) }
  else if kv.fst = "power_status" then
    .ok { e with powerStatus := some (trimStr kv.snd) }
  else if kv.fst = "slot" then
    match parseU8Str (trimStr kv.snd) with
    | some v => .ok { e with slot := v }
    | none => .error ()
  else if kv.fst = "status" then .ok { e with status := some (trimStr kv.snd) }
  else if kv.fst = "type" then
    .ok { e with enclosureType := some (trimStr kv.snd) }
  else .ok e

/-- `get_enclosure_data` (lib.rs). -/
def getEnclosureDataM (files : List (String × String)) : Except Unit EnclosureM :=
  files.foldlM encStep enclosureDefault

/-- One step of the inner attribute loop of the structured `get_scsi_info`
(lib.rs): the `block` subdirectory yields the block-device path from its
first entry; an `enclosure_device*` subdirectory yields enclosure data;
`model` and `rev` accept any trimmed text; `state`, `type` and `vendor` go
through their enumerations with the `?` operator, so a malformed value
propagates an error. -/
def scsiItemStep (s : ScsiInfoM) : SysEntryItem → Except Unit ScsiInfoM
  | .subdir n entries =>
    if n = "block" then
      match entries.head? with
      | some kv => .ok { s with blockDevice := some ("/dev/" ++ kv.fst) }
      | none => .ok s
    else if startsWithL "enclosure_device".data n.data then
      match getEnclosureDataM entries with
      | .ok e => .ok { s with enclosure := some e }
      | .error u => .error u
    else .ok s
  | .file n content =>
    if n = "model" then .ok { s with model := some (trimStr content) }
    else if n = "rev" then .ok { s with rev := some (trimStr content) }
    else if n = "state" then
      match deviceStateFromStr (trimStr content) with
      | some st => .ok { s with state := some st }
      | none => .error ()
    else if n = "type" then
      match scsiDeviceTypeFromStr (trimStr content) with
      | some t => .ok { s with scsiType := t }
      | none => .error ()
    else if n = "vendor" then
      match vendorFromStr (trimStr content) with
      | some v => .ok { s with vendor := v }
      | none => .error ()
    else .ok s

/-- One step of the outer directory loop of the structured `get_scsi_info`
(lib.rs): entries not starting with a digit, or whose name does not split on
':' into exactly four parts, are skipped (continue); a part that fails
`u8::from_str` propagates an error via `?`; otherwise the attribute items are
folded over a default record carrying the parsed coordinates and the record
is appended. -/
def scsiEntryStep (acc : List ScsiInfoM) (entry : String × List SysEntryItem) :
    Except Unit (List ScsiInfoM) :=
  match entry.fst.data.head? with
  | none => .ok acc
  | some c =>
    if c.isDigit then
      match splitOnChar ':' entry.fst with
      | [p0, p1, p2, p3] =>
        match parseU8Str p0, parseU8Str p1, parseU8Str p2, parseU8Str p3 with
        | some h, some ch, some i, some l =>
          match entry.snd.foldlM scsiItemStep
              { scsiDefault with host := h, channel := ch, id := i, lun := l } with
          | .ok s => .ok (acc ++ [s])
          | .error u => .error u
        | _, _, _, _ => .error ()
      | _ => .ok acc
    else .ok acc

/-- The structured (sysfs) branch of `get_scsi_info` (lib.rs), abstracted over
the directory tree under /sys/bus/scsi/devices. -/
def getScsiInfoStructured (tree : List (String × List SysEntryItem)) :
    Except Unit (List ScsiInfoM) :=
  tree.foldlM scsiEntryStep []

/-- C2 counterexample: an entry with the well-formed coordinate name 0:0:0:0
and a malformed optional `state` attribute ("bogus") ABORTS the whole scan
with an error; the claim predicts the entry is still produced with the state
field left at its default. -/
theorem structuredScanAbortCounterexample :
    getScsiInfoStructured [("0:0:0:0", [SysEntryItem.file "state" "bogus"])] =
        .error () ∧
      (Except.error () : Except Unit (List ScsiInfoM)) ≠ .ok [scsiDefault] :=
  ⟨rfl, fun h => Except.noConfusion h⟩

/-- C2 (amended): in the structured SCSI walk, MISSING optional attributes
are skipped and leave the fields at their defaults without aborting, and
`model`/`rev` accept arbitrary text; but a malformed `state`, `type` or
`vendor` attribute, or a malformed enclosure `slot` value, propagates a fatal
error that aborts the whole scan — exactly as a malformed numeric coordinate
does (a name with the wrong number of ':'-separated fields is instead
skipped). -/
theorem structuredScanBehaviour :
    getScsiInfoStructured [("1:2:3:4", [])] =
      .ok [{ scsiDefault with host := 1, channel := 2, id := 3, lun := 4 }] ∧
    getScsiInfoStructured
        [("1:2:3:4", [SysEntryItem.file "model" "Weird stuff 123!"])] =
      .ok [{ scsiDefault with
             host := 1, channel := 2, id := 3, lun := 4,
             model := some "Weird stuff 123!" }] ∧
    getScsiInfoStructured [("1:2:3:4", [SysEntryItem.file "state" "bogus"])] =
      .error () ∧
    getScsiInfoStructured [("1:2:3:4", [SysEntryItem.file "vendor" "SEAGATE"])] =
      .error () ∧
    getScsiInfoStructured
        [("1:2:3:4", [SysEntryItem.subdir "enclosure_device:0" [("slot", "banana")]])] =
      .error () ∧
    getScsiInfoStructured [("1:2:x:4", [])] = .error () ∧
    getScsiInfoStructured [("bsg", [SysEntryItem.file "state" "bogus"])] = .ok [] :=
  ⟨rfl, rfl, rfl, rfl, rfl, rfl, rfl⟩

/-! ## Legacy SCSI text parser: the nom grammar of `scsi_host_info` (C1, C5)

The lib.rs parser is built from nom 5 macros, which are the STREAMING
variants (`tag!`, `take_while!`, `many1!`, `opt!`, ...) except for the two
functions imported explicitly from `nom::character::complete`
(`alpha1`, `multispace0`).  A streaming parser can request more input
(`Err::Incomplete(Needed::Size n)`), which `get_scsi_info` maps to a parse
error carrying a bytes-needed hint. -/

/-- Result of a streaming nom parser: success with remaining input, a
recoverable error (`Err::Error`), a request for more input
(`Err::Incomplete(Needed::Size n)`), or a Rust panic raised while building a
result value. -/
inductive NomR (α : Type) where
  | ok (rest : List Char) (val : α)
  | err
  | more (needed : Nat)
  | panicked

/-- A streaming nom parser over bytes (modelled as chars; the inputs are
ASCII). -/
def NomP (α : Type) : Type := List Char → NomR α

/-- Parser sequencing (the `>>` chain of `do_parse!`). -/
def nbind {α β : Type} (p : NomP α) (f : α → NomP β) : NomP β := fun i =>
  match p i with
  | .ok i1 a => f a i1
  | .err => .err
  | .more n => .more n
  | .panicked => .panicked

/-- nom's streaming `tag!`: a full match consumes the tag; an input that is a
proper prefix of the tag requests `Needed::Size (tag length)`; any mismatch
errors. -/
def tagP (t : List Char) : NomP (List Char) := fun i =>
  if startsWithL t i then .ok (i.drop t.length) t
  else if startsWithL i t then .more t.length
  else .err

/-- nom's streaming `take_while!`: consumes the maximal matching run, and
requests one more byte when it reaches the end of input with every byte
matching. -/
def takeWhileP (p : Char → Bool) : NomP (List Char) := fun i =>
  if (i.dropWhile p).isEmpty then .more 1
  else .ok (i.dropWhile p) (i.takeWhile p)

/-- nom's COMPLETE `alpha1` (`nom::character::complete`): one or more ASCII
letters; no incompleteness at end of input. -/
def alpha1C : NomP (List Char) := fun i =>
  if (i.takeWhile Char.isAlpha).isEmpty then .err
  else .ok (i.dropWhile Char.isAlpha) (i.takeWhile Char.isAlpha)

/-- The whitespace class of nom's `multispace0`. -/
def isNomSpace (c : Char) : Bool :=
  c == ' ' || c == '\t' || c == '\r' || c == '\n'

/-- nom's COMPLETE `multispace0` (`nom::character::complete`). -/
def multispace0C : NomP (List Char) := fun i =>
  .ok (i.dropWhile isNomSpace) (i.takeWhile isNomSpace)

/-- nom's `map_res!`: a failing conversion is a recoverable error. -/
def mapResP {α β : Type} (p : NomP α) (f : α → Option β) : NomP β := fun i =>
  match p i with
  | .ok i1 a =>
    match f a with
    | some b => .ok i1 b
    | none => .err
  | .err => .err
  | .more n => .more n
  | .panicked => .panicked

/-- nom's `preceded!`. -/
def precededP {α β : Type} (a : NomP α) (b : NomP β) : NomP β :=
  nbind a (fun _ => b)

/-- nom's `delimited!`. -/
def delimitedP {α β γ : Type} (a : NomP α) (b : NomP β) (c : NomP γ) : NomP β :=
  nbind a (fun _ => nbind b (fun x => nbind c (fun _ => fun i => .ok i x)))

/-- The `trim!` macro of lib.rs: `delimited!(multispace0, ., multispace0)`. -/
def trimP {α : Type} (p : NomP α) : NomP α :=
  delimitedP multispace0C p multispace0C

/-- nom's `opt!`: a recoverable error yields `none` on the original input;
incompleteness and panics propagate. -/
def optP {α : Type} (p : NomP α) : NomP (Option α) := fun i =>
  match p i with
  | .ok i1 a => .ok i1 (some a)
  | .err => .ok i none
  | .more n => .more n
  | .panicked => .panicked

/-- `take_u8` (lib.rs): digit run through `from_utf8` and `u8::from_str`. -/
def takeU8 : NomP Nat :=
  mapResP (takeWhileP Char.isDigit) (fun cs => parseU8Str (String.mk cs))

/-- `take_u32` (lib.rs). -/
def takeU32 : NomP Nat :=
  mapResP (takeWhileP Char.isDigit) (fun cs => parseU32Str (String.mk cs))

/-- `host` (lib.rs). -/
def hostP : NomP Nat :=
  trimP (precededP (trimP (tagP "Host: scsi".data)) takeU8)

/-- `channel` (lib.rs). -/
def channelP : NomP Nat :=
  trimP (precededP (trimP (tagP "Channel:".data)) takeU8)

/-- `scsi_id` (lib.rs). -/
def scsiIdP : NomP Nat :=
  trimP (precededP (trimP (tagP "Id:".data)) takeU8)

/-- `scsi_lun` (lib.rs). -/
def scsiLunP : NomP Nat :=
  trimP (precededP (trimP (tagP "Lun:".data)) takeU8)

/-- `vendor` (lib.rs): alpha token delimited by the tag and a single
space. -/
def vendorP : NomP String :=
  trimP (mapResP (delimitedP (trimP (tagP "Vendor:".data)) alpha1C (tagP " ".data))
    (fun cs => some (String.mk cs)))

/-- `model` (lib.rs): alpha token delimited by the tag and TWO spaces. -/
def modelP : NomP String :=
  trimP (mapResP (delimitedP (trimP (tagP "Model:".data)) alpha1C (tagP "  ".data))
    (fun cs => some (String.mk cs)))

/-- `rev` (lib.rs). -/
def revP : NomP String :=
  trimP (mapResP (delimitedP (trimP (tagP "Rev:".data)) alpha1C (tagP " ".data))
    (fun cs => some (String.mk cs)))

/-- `scsi_type` (lib.rs). -/
def typeTokP : NomP String :=
  trimP (mapResP (delimitedP (trimP (tagP "Type:".data)) alpha1C (tagP " ".data))
    (fun cs => some (String.mk cs)))

/-- `revision` (lib.rs); note the double space inside the tag. -/
def revisionP : NomP Nat :=
  trimP (precededP (trimP (tagP "ANSI  SCSI revision:".data)) takeU32)

/-- One record of `scsi_host_info` (lib.rs): the `do_parse!` chain.  The
final tuple construction calls `Vendor::from_str(..).unwrap()` and
`ScsiDeviceType::from_str(..).unwrap()`; an unrecognized token there is a
PANIC, modelled by the `panicked` outcome.  Field order of the constructor:
block_device, enclosure, host, channel, id, lun, vendor, model, rev
(trimmed), state, scsi_type, scsi_revision. -/
def scsiRecordP : NomP ScsiInfoM :=
  nbind (optP (tagP "Attached devices:".data)) (fun _ =>
    nbind hostP (fun h =>
      nbind channelP (fun c =>
        nbind scsiIdP (fun idv =>
          nbind scsiLunP (fun l =>
            nbind vendorP (fun v =>
              nbind modelP (fun m =>
                nbind revP (fun r =>
                  nbind typeTokP (fun t =>
                    nbind revisionP (fun rv => fun i =>
                      match vendorFromStr v, scsiDeviceTypeFromStr t with
                      | some vv, some tt =>
                        .ok i (ScsiInfoM.mk none none h c idv l vv (some m)
                          (some (trimStr r)) none tt rv)
                      | _, _ => .panicked))))))))))

/-- The iteration of nom's `many1!` after a first success: a recoverable
error ends the loop returning the accumulated values; incompleteness and
panics propagate; a non-consuming success errors (nom's infinite-loop
guard).  The fuel starts at input length + 1, which the consumption guard
makes sufficient, so the fuel-exhausted arm is unreachable. -/
def many1Go {α : Type} (p : NomP α) : Nat → List Char → List α → NomR (List α)
  | 0, _, _ => .err
  | fuel + 1, i, acc =>
    match p i with
    | .err => .ok i acc.reverse
    | .more n => .more n
    | .panicked => .panicked
    | .ok i1 a => if i1 == i then .err else many1Go p fuel i1 (a :: acc)

/-- nom's `many1!`. -/
def many1P {α : Type} (p : NomP α) : NomP (List α) := fun i =>
  match p i with
  | .err => .err
  | .more n => .more n
  | .panicked => .panicked
  | .ok i1 a => many1Go p (i1.length + 1) i1 [a]

/-- `scsi_host_info` (lib.rs). -/
def scsiHostInfo : NomP (List ScsiInfoM) := many1P scsiRecordP

/-- The observable outcome of the legacy fallback branch of
`get_scsi_info`. -/
inductive ScsiParseOutcome where
  | okRecords (records : List ScsiInfoM)
  | parseErrorHint (needed : Nat)
  | parseError
  | panicked
deriving DecidableEq

/-- The legacy fallback branch of `get_scsi_info` (lib.rs): `Ok` keeps the
record list (discarding any unconsumed remainder), `Incomplete(needed)`
becomes a `ParseError` with a bytes-needed hint, `Error`/`Failure` a plain
`ParseError`; a panic escapes the function. -/
def getScsiInfoLegacy (buff : String) : ScsiParseOutcome :=
  match scsiHostInfo buff.data with
  | .ok _ v => .okRecords v
  | .more n => .parseErrorHint n
  | .err => .parseError
  | .panicked => .panicked

/-- A well-formed legacy record in the grammar of `scsi_host_info`. -/
def scsiRec1Text : String :=
  "Attached devices:\nHost: scsi0 Channel: 00 Id: 00 Lun: 00\n  Vendor: ATA Model: VBOXHARDDISK  Rev: R \n  Type: Enclosure ANSI  SCSI revision: 05\n"

/-- A second well-formed legacy record. -/
def scsiRec2Text : String :=
  "Host: scsi2 Channel: 01 Id: 00 Lun: 03\n  Vendor: QEMU Model: QEMUHARDDISK  Rev: B \n  Type: RAID ANSI  SCSI revision: 03\n"

/-- A well-formed two-record legacy blob ending at end of input. -/
def scsiTwoRecordBlob : String := scsiRec1Text ++ scsiRec2Text

/-- The record that `scsiRec1Text` denotes. -/
def rec1M : ScsiInfoM :=
  ScsiInfoM.mk none none 0 0 0 0 .None (some "VBOXHARDDISK") (some "R") none
    .Enclosure 5

/-- The record that `scsiRec2Text` denotes. -/
def rec2M : ScsiInfoM :=
  ScsiInfoM.mk none none 2 1 0 3 .Qemu (some "QEMUHARDDISK") (some "B") none
    .StorageArray 3

/-- `scsiRec1Text` with an unrecognized (but alphabetic) vendor token. -/
def scsiBadVendorText : String :=
  "Attached devices:\nHost: scsi0 Channel: 00 Id: 00 Lun: 00\n  Vendor: FOOBAR Model: VBOXHARDDISK  Rev: R \n  Type: Enclosure ANSI  SCSI revision: 05\n"

/-- C1 counterexample: `scsiRec1Text` is a complete well-formed record (the
parser itself extracts it, and a second one, when non-matching text follows),
yet appending a malformed second record ("GARBAGE") makes the parse SUCCEED
with a partial one-record list instead of returning a `ParseError` — the
legacy parse is not all-or-nothing. -/
theorem scsiLegacyAllOrNothingCounterexample :
    getScsiInfoLegacy (scsiTwoRecordBlob ++ "END") = .okRecords [rec1M, rec2M] ∧
      getScsiInfoLegacy (scsiRec1Text ++ "GARBAGE") = .okRecords [rec1M] := by
  exact ⟨by decide, by decide⟩

/-- C1 (amended): the legacy parse is neither all-or-nothing nor able to
succeed on input ending cleanly after its last record: (a) the well-formed
two-record blob parses into exactly its two records in input order only when
non-matching trailing text follows them; (b) the same blob ending at end of
input yields a `ParseError` with a bytes-needed hint (17 = the length of
"Attached devices:", which the streaming grammar requests at a clean end);
(c) a well-formed first record followed by a malformed record yields a
SUCCESSFUL partial result of just the first record; (d) truncation mid-record
yields a `ParseError` with a bytes-needed hint (8 = the length of the cut
"Channel:" tag). -/
theorem scsiLegacyBehaviour :
    getScsiInfoLegacy (scsiTwoRecordBlob ++ "END") = .okRecords [rec1M, rec2M] ∧
      getScsiInfoLegacy scsiTwoRecordBlob = .parseErrorHint 17 ∧
      getScsiInfoLegacy (scsiRec1Text ++ "GARBAGE") = .okRecords [rec1M] ∧
      getScsiInfoLegacy (scsiRec1Text ++ "Host: scsi2 Chan") = .parseErrorHint 8 := by
  exact ⟨by decide, by decide, by decide, by decide⟩

/-- C5: a record whose Vendor token is alphabetic but not a recognized
`Vendor` entry makes the legacy parser PANIC — the `do_parse!` result
construction calls `Vendor::from_str(vendor).unwrap()` — instead of
returning a parse error to the caller. -/
theorem legacyUnknownVendorPanics :
    getScsiInfoLegacy scsiBadVendorText = .panicked ∧
      vendorFromStr "FOOBAR" = none := by
  exact ⟨by decide, by decide⟩
